import Mathlib

/-!
Shallow embedding of the GitHub provider bridge of `resux`
(`src/resux/git/github.py`): the `_PaginationAdapter` class, and the
`Repo` facade methods `get_readme` and `get_files`.

Modelling conventions:
* A raw paginated collection (`github.PaginatedList`) is a list of raw
  items together with a provider-reported `totalCount`.
* Python exceptions become an explicit `PyError` sum; a method that can
  raise returns `Except PyError _`.
* The memoization of `_list` (a `functools.cached_property`) is explicit
  state passing: `AdapterState` carries the once-filled cache slot.
* Every provider call an operation performs is recorded in an effect
  trace, tagged with the thread it executes on: `Site.worker` when the
  code wraps the call in `asyncio.to_thread`, `Site.scheduler` when the
  call executes directly on the calling (event-loop) thread.  Element
  mapping through `model_type.from_raw` is recorded as `PCall.mapRaw`.
* Python truthiness of a raw item (the `while raw := ...` loop test in
  `__aiter__`) is an explicit function `truthy` on the raw item type;
  the exhausted-iterator sentinel `None` is falsy, hence end-of-list
  terminates the loop in the model exactly as in the code.
-/

/-- Thread on which a recorded call executes: the calling scheduler
(event-loop) thread, or a worker thread via `asyncio.to_thread`. -/
inductive Site where
  | scheduler
  | worker
deriving DecidableEq, Repr

/-- Kinds of calls an adapter or facade operation performs. -/
inductive PCall where
  | factory      -- `self.init()` inside the `_list` cached property
  | countRead    -- `.totalCount` attribute read on the raw collection
  | getItem      -- `PaginatedList.__getitem__` with an int index
  | getSlice     -- `PaginatedList.__getitem__` with a slice
  | nextItem     -- `next(items, None)` on the shared iterator
  | keyLookup    -- the configured `get_by_key` callable
  | mapRaw       -- `self.model_type.from_raw(raw)`
deriving DecidableEq, Repr

/-- One recorded effect: a call together with the thread it ran on. -/
structure Eff where
  call : PCall
  site : Site
deriving DecidableEq, Repr

/-- Python exceptions relevant to this module.  `unknownObject` is
PyGithub's `UnknownObjectException` carrying its HTTP status;
`typeError` is the built-in `TypeError`; `indexError` the built-in
`IndexError`; `otherError` stands for any other provider exception.
`notFound` and `unsupportedKeyType` model the error classes named by
the specification (`NotFoundError`, `UnsupportedKeyTypeError`); no code
in the repository defines or raises them. -/
inductive PyError where
  | typeError (msg : String)
  | unknownObject (status : Int)
  | indexError
  | otherError (tag : String)
  | notFound
  | unsupportedKeyType
deriving DecidableEq, Repr

/-- A raw paginated collection (`github.PaginatedList`): its elements in
provider order and the provider-reported `totalCount`. -/
structure RawPagination (ρ : Type) where
  items : List ρ
  totalCount : Nat
deriving DecidableEq, Repr

/-- Configuration of a `_PaginationAdapter` instance: the factory
(`init`), the domain mapping (`model_type.from_raw`), the optional
key-lookup callable (`get_by_key`, `none` models Python `None`), and
the Python truthiness of the raw item type. -/
structure PaginationAdapter (ρ μ : Type) where
  init : Unit → RawPagination ρ
  model_of : ρ → μ
  get_by_key : Option (String → Except PyError ρ)
  truthy : ρ → Bool

/-- Mutable state of one adapter instance: the `cached_property` slot
backing `_list` (`none` until first touched). -/
structure AdapterState (ρ : Type) where
  memo : Option (RawPagination ρ)
deriving DecidableEq, Repr

/-- State of a freshly constructed adapter: nothing memoized. -/
def AdapterState.fresh (ρ : Type) : AdapterState ρ := ⟨none⟩

/-- Result of one adapter operation: its value, the adapter state after
the call, and the trace of provider calls performed. -/
structure OpResult (ρ : Type) (α : Type) where
  value : α
  state : AdapterState ρ
  trace : List Eff
deriving Repr

namespace PaginationAdapter

variable {ρ μ : Type}

/-- Embeds the `_list` cached property: return the memoized collection,
or invoke the factory once and fill the slot.  The attribute access that
triggers construction happens on the calling thread in every operation
of the class (`__len__` line 58, `__aiter__` line 62, `get` line 74,
`slice` line 84, `all` lines 89-90 all evaluate `self._list` outside
`asyncio.to_thread`), so the factory call is tagged `Site.scheduler`. -/
def _list (a : PaginationAdapter ρ μ) (s : AdapterState ρ) :
    RawPagination ρ × AdapterState ρ × List Eff :=
  match s.memo with
  | some l => (l, s, [])
  | none =>
      let l := a.init ()
      (l, ⟨some l⟩, [⟨.factory, .scheduler⟩])

/-- Embeds `__len__`: `return self._list.totalCount`.  The method is a
plain synchronous method; both the (possible) construction and the
count read execute on the calling thread. -/
def len (a : PaginationAdapter ρ μ) (s : AdapterState ρ) : OpResult ρ Nat :=
  ⟨(_list a s).1.totalCount,
   (_list a s).2.1,
   (_list a s).2.2 ++ [⟨.countRead, .scheduler⟩]⟩

/-- Embeds `PaginatedList.__getitem__` with an int index: the element at
that position, or the provider's own `IndexError` out of range. -/
def rawGetIndex (l : RawPagination ρ) (i : Nat) : Except PyError ρ :=
  match l.items.get? i with
  | some x => .ok x
  | none => .error .indexError

/-- Embeds `PaginatedList.__getitem__` with a slice `start:stop`:
the contiguous run of elements, half-open and clamped. -/
def rawSlice (l : RawPagination ρ) (start stop : Nat) : List ρ :=
  (l.items.drop start).take (stop - start)

/-- Key passed to `get`: a Python `int` or `str`. -/
inductive Key where
  | int (i : Nat)
  | str (k : String)

/-- Embeds `_PaginationAdapter.get` (lines 71-80).  `case int()`:
offloaded `self._list.__getitem__(key)` then mapping.  `case str() if
self.get_by_key`: offloaded `self.get_by_key(key)` then mapping, with
no exception handling of its own, so every error of the callable
propagates unchanged.  Otherwise: `raise TypeError("Indexing by str is
not supported for this model")` before any provider call. -/
def get (a : PaginationAdapter ρ μ) (s : AdapterState ρ) (key : Key) :
    OpResult ρ (Except PyError μ) :=
  match key with
  | .int i =>
      match rawGetIndex (_list a s).1 i with
      | .ok raw =>
          ⟨.ok (a.model_of raw), (_list a s).2.1,
           (_list a s).2.2 ++ [⟨.getItem, .worker⟩, ⟨.mapRaw, .scheduler⟩]⟩
      | .error e =>
          ⟨.error e, (_list a s).2.1, (_list a s).2.2 ++ [⟨.getItem, .worker⟩]⟩
  | .str k =>
      match a.get_by_key with
      | some f =>
          match f k with
          | .ok raw =>
              ⟨.ok (a.model_of raw), s, [⟨.keyLookup, .worker⟩, ⟨.mapRaw, .scheduler⟩]⟩
          | .error e => ⟨.error e, s, [⟨.keyLookup, .worker⟩]⟩
      | none =>
          ⟨.error (.typeError "Indexing by str is not supported for this model"), s, []⟩

/-- Embeds `_PaginationAdapter.slice` (lines 82-85): one offloaded
`__getitem__` with `slice(start, stop)`, then a list comprehension
mapping each fetched raw element. -/
def sliceOp (a : PaginationAdapter ρ μ) (s : AdapterState ρ) (start stop : Nat) :
    OpResult ρ (List μ) :=
  ⟨(rawSlice (_list a s).1 start stop).map a.model_of,
   (_list a s).2.1,
   (_list a s).2.2 ++ [⟨.getSlice, .worker⟩]
     ++ (rawSlice (_list a s).1 start stop).map (fun _ => ⟨.mapRaw, .scheduler⟩)⟩

/-- Embeds the loop of `__aiter__` (lines 62-64) on the remaining items
of the shared iterator: each `next(items, None)` is offloaded, the loop
continues while the fetched value is truthy (the exhausted iterator
yields `None`, which is falsy), and each kept item is mapped and
yielded. -/
def aiterLoop (a : PaginationAdapter ρ μ) : List ρ → List μ × List Eff
  | [] => ([], [⟨.nextItem, .worker⟩])
  | x :: xs =>
      if a.truthy x then
        (a.model_of x :: (aiterLoop a xs).1,
         ⟨.nextItem, .worker⟩ :: ⟨.mapRaw, .scheduler⟩ :: (aiterLoop a xs).2)
      else ([], [⟨.nextItem, .worker⟩])

/-- Embeds a full run of `__aiter__`: `items = iter(self._list)` (the
iteration start, touching the cached property on the calling thread)
followed by the fetch-map loop until a falsy value arrives. -/
def aiterRun (a : PaginationAdapter ρ μ) (s : AdapterState ρ) : OpResult ρ (List μ) :=
  ⟨(aiterLoop a (_list a s).1.items).1,
   (_list a s).2.1,
   (_list a s).2.2 ++ (aiterLoop a (_list a s).1.items).2⟩

/-- Embeds `_PaginationAdapter.all` (lines 87-90): `len(self)` is
evaluated synchronously, then one offloaded `__getitem__` with
`slice(len(self))`, that is the run `0:totalCount`, then mapping. -/
def allOp (a : PaginationAdapter ρ μ) (s : AdapterState ρ) : OpResult ρ (List μ) :=
  ⟨(rawSlice (_list a (len a s).state).1 0 (len a s).value).map a.model_of,
   (_list a (len a s).state).2.1,
   (len a s).trace ++ (_list a (len a s).state).2.2 ++ [⟨.getSlice, .worker⟩]
     ++ (rawSlice (_list a (len a s).state).1 0 (len a s).value).map
          (fun _ => ⟨.mapRaw, .scheduler⟩)⟩

/-- Number of factory invocations recorded in a trace. -/
def factoryCount (t : List Eff) : Nat :=
  (t.filter (fun e => e.call == PCall.factory)).length

/-- Number of `from_raw` mapping invocations recorded in a trace. -/
def mapCount (t : List Eff) : Nat :=
  (t.filter (fun e => e.call == PCall.mapRaw)).length

/-- Memoized-reference operations a caller can issue against one adapter
instance, in the sense of the memoization invariant: `length()`,
integer-keyed `get`, `slice`, iteration start (`__aiter__`), and
`all()`.  Each of them reads the `_list` cached property. -/
inductive AOp where
  | length
  | getInt (i : Nat)
  | sliceA (start stop : Nat)
  | iterate
  | allA

/-- Runs one operation against the adapter, keeping only the resulting
state and trace. -/
def applyOp (a : PaginationAdapter ρ μ) (s : AdapterState ρ) :
    AOp → AdapterState ρ × List Eff
  | .length => ((len a s).state, (len a s).trace)
  | .getInt i => ((get a s (.int i)).state, (get a s (.int i)).trace)
  | .sliceA u v => ((sliceOp a s u v).state, (sliceOp a s u v).trace)
  | .iterate => ((aiterRun a s).state, (aiterRun a s).trace)
  | .allA => ((allOp a s).state, (allOp a s).trace)

/-- Runs a sequence of operations against the adapter, threading the
state and concatenating the traces. -/
def runOps (a : PaginationAdapter ρ μ) (s : AdapterState ρ) :
    List AOp → AdapterState ρ × List Eff
  | [] => (s, [])
  | op :: ops =>
      ((runOps a (applyOp a s op).1 ops).1,
       (applyOp a s op).2 ++ (runOps a (applyOp a s op).1 ops).2)

end PaginationAdapter

/-! Repo facade (`class Repo` in `src/resux/git/github.py`). -/

/-- Raw directory entry (`github.ContentFile`): a path and PyGithub's
`type` discriminator (the strings "dir" and "file"). -/
structure RawContentFile where
  path : String
  type : String
deriving DecidableEq, Repr

/-- Domain `File` wrapper (`class File` in the module): wraps a raw
content file and exposes its path. -/
structure FileM where
  file : RawContentFile
deriving DecidableEq, Repr

/-- Path accessor of the `File` wrapper. -/
def FileM.path (f : FileM) : String := f.file.path

/-- Behavior of one raw `github.Repository` as consumed by the facade:
what `get_readme()` does when called, and what `get_dir_contents(path)`
returns for each path. -/
structure RawRepository where
  readmeResult : Except PyError RawContentFile
  dirContents : String → List RawContentFile

/-- Embeds `Repo.get_readme` (lines 122-130): offload
`self.wrapped.get_readme()`; on success wrap the file; on
`UnknownObjectException` with status 404 return `None`; re-raise
anything else (including an `UnknownObjectException` whose status is
not 404). -/
def Repo.get_readme (r : RawRepository) : Except PyError (Option FileM) :=
  match r.readmeResult with
  | .ok f => .ok (some ⟨f⟩)
  | .error (.unknownObject status) =>
      if status = 404 then .ok none else .error (.unknownObject status)
  | .error e => .error e

/-- Embeds the worklist loop of `Repo.get_files` (lines 132-139), with
fuel for the `while paths:` loop.  `paths.pop()` removes the LAST
element of the Python list; `paths.extend(...)` appends the
subdirectory paths; file entries of the popped directory are mapped and
yielded in order before the next pop.  Returns the yielded files and
the number of `get_dir_contents` calls, or `none` when the fuel runs
out. -/
def getFilesGo (dc : String → List RawContentFile) :
    Nat → List String → Option (List FileM × Nat)
  | _, [] => some ([], 0)
  | 0, _ :: _ => none
  | Nat.succ fuel, p :: ps =>
      let popped := (p :: ps).getLast (List.cons_ne_nil p ps)
      let rest := (p :: ps).dropLast
      let files := dc popped
      let newPaths := rest ++ (files.filter (fun f => f.type == "dir")).map (fun f => f.path)
      let yielded := (files.filter (fun f => f.type == "file")).map (fun f => FileM.mk f)
      match getFilesGo dc fuel newPaths with
      | some (more, cnt) => some (yielded ++ more, cnt + 1)
      | none => none

/-- Embeds a full run of `Repo.get_files`: the worklist starts as
`[""]` (the root path). -/
def Repo.get_files (r : RawRepository) (fuel : Nat) : Option (List FileM × Nat) :=
  getFilesGo r.dirContents fuel [""]

/-! Concrete stub instances used for witnesses and counterexamples.
Raw items are numbered stubs (`Nat`); Python truthiness of a number is
`n != 0`, and the mapped domain object of stub `n` is the value
`n * 10`. -/

/-- Python truthiness of a numbered stub item. -/
def natTruthy (n : Nat) : Bool := n != 0

/-- Stub raw collection of three truthy items in provider order. -/
def stubList : RawPagination Nat := ⟨[1, 2, 3], 3⟩

/-- Stub adapter without a key-lookup function (like the `tags`
adapter, constructed with `get_by_key=None`). -/
def stubNoKey : PaginationAdapter Nat Nat :=
  ⟨fun _ => stubList, fun n => n * 10, none, natTruthy⟩

/-- Stub key-lookup whose every call raises the provider's not-found
condition (`UnknownObjectException` with status 404). -/
def notFoundLookup : String → Except PyError Nat :=
  fun _ => .error (.unknownObject 404)

/-- Stub adapter whose key-lookup raises the provider's not-found
condition. -/
def stubWithLookup : PaginationAdapter Nat Nat :=
  ⟨fun _ => stubList, fun n => n * 10, some notFoundLookup, natTruthy⟩

/-- Stub adapter whose raw collection contains a falsy item (the stub
`0`) at position 2, followed by a further item. -/
def stubFalsy : PaginationAdapter Nat Nat :=
  ⟨fun _ => ⟨[1, 2, 0, 5], 4⟩, fun n => n * 10, none, natTruthy⟩

/-- Stub directory tree mapping the root to a subdirectory `a` and a
file `b.txt`, and `a` to the single file `a/c.txt`. -/
def stubDirTree : String → List RawContentFile := fun p =>
  if p == "" then [⟨"a", "dir"⟩, ⟨"b.txt", "file"⟩]
  else if p == "a" then [⟨"a/c.txt", "file"⟩]
  else []

/-- Stub repository carrying the stub directory tree. -/
def stubTreeRepo : RawRepository :=
  ⟨.ok ⟨"README.md", "file"⟩, stubDirTree⟩

/-- Stub repository whose readme lookup raises the provider's
not-found condition. -/
def readme404Repo : RawRepository :=
  ⟨.error (.unknownObject 404), stubDirTree⟩

/-! Helper lemmas about traces and the iteration loop. -/

open PaginationAdapter

/-- Factory invocations recorded in a concatenation of traces. -/
theorem factoryCount_append (t1 t2 : List Eff) :
    factoryCount (t1 ++ t2) = factoryCount t1 + factoryCount t2 := by
  simp [factoryCount, List.filter_append]

/-- A trace without factory calls counts zero factory invocations. -/
theorem factoryCount_eq_zero {t : List Eff}
    (h : ∀ e ∈ t, e.call ≠ PCall.factory) : factoryCount t = 0 := by
  simp only [factoryCount, List.length_eq_zero, List.filter_eq_nil_iff]
  intro e he
  simpa using h e he

/-- The iteration loop performs only iterator advances and mappings. -/
theorem aiterLoop_trace_calls (a : PaginationAdapter ρ μ) (xs : List ρ) :
    ∀ e ∈ (aiterLoop a xs).2, e.call = PCall.nextItem ∨ e.call = PCall.mapRaw := by
  induction xs with
  | nil =>
      intro e he
      simp [aiterLoop] at he
      simp [he]
  | cons x xs ih =>
      intro e he
      by_cases hx : a.truthy x
      · simp only [aiterLoop, if_pos hx, List.mem_cons] at he
        rcases he with rfl | rfl | he
        · exact Or.inl rfl
        · exact Or.inr rfl
        · exact ih e he
      · simp only [aiterLoop, if_neg hx, List.mem_singleton] at he
        simp [he]

/-- The iteration loop maps every item while all items are truthy. -/
theorem aiterLoop_all_truthy (a : PaginationAdapter ρ μ) (xs : List ρ)
    (h : ∀ x ∈ xs, a.truthy x = true) :
    (aiterLoop a xs).1 = xs.map a.model_of := by
  induction xs with
  | nil => rfl
  | cons x xs ih =>
      have hx := h x (List.mem_cons_self x xs)
      simp [aiterLoop, hx, ih (fun y hy => h y (List.mem_cons_of_mem x hy))]

/-- The iteration loop stops at the first falsy item, keeping exactly
the truthy items before it. -/
theorem aiterLoop_stops_at_falsy (a : PaginationAdapter ρ μ) (xs ys : List ρ) (f : ρ)
    (hxs : ∀ x ∈ xs, a.truthy x = true) (hf : a.truthy f = false) :
    (aiterLoop a (xs ++ f :: ys)).1 = xs.map a.model_of := by
  induction xs with
  | nil => simp [aiterLoop, hf]
  | cons x xs ih =>
      have hx := hxs x (List.mem_cons_self x xs)
      simp [aiterLoop, hx, ih (fun y hy => hxs y (List.mem_cons_of_mem x hy))]

/-- A slice whose bounds coincide fetches no raw element. -/
theorem rawSlice_self (l : RawPagination ρ) (k : Nat) : rawSlice l k k = [] := by
  simp [rawSlice]

/-- The slice over the whole index range fetches every raw element. -/
theorem rawSlice_all (l : RawPagination ρ) : rawSlice l 0 l.items.length = l.items := by
  simp [rawSlice]

/-! Claim theorems. -/

/-- C9: for every Pagination Adapter, every state and every integer
`k`, `slice(k, k)` returns an empty sequence and invokes the domain
mapping function zero times (no `mapRaw` effect in the trace). -/
theorem slice_empty_range_maps_nothing (a : PaginationAdapter ρ μ)
    (s : AdapterState ρ) (k : Nat) :
    (sliceOp a s k k).value = [] ∧ mapCount (sliceOp a s k k).trace = 0 := by
  rcases s with ⟨_ | l⟩ <;>
    simp [sliceOp, _list, rawSlice_self, mapCount]

/-- C2 counterexample: on an adapter with no key-lookup function,
`get` with a string key raises the generic built-in `TypeError`, not a
distinguished `UnsupportedKeyTypeError` (no such class exists in the
code), although it does so without any factory or provider call. -/
theorem get_str_no_lookup_counterexample :
    (get stubNoKey (AdapterState.fresh Nat) (.str "missing")).value
        = .error (.typeError "Indexing by str is not supported for this model")
    ∧ (get stubNoKey (AdapterState.fresh Nat) (.str "missing")).value
        ≠ .error PyError.unsupportedKeyType
    ∧ (get stubNoKey (AdapterState.fresh Nat) (.str "missing")).trace = [] := by
  refine ⟨rfl, ?_, rfl⟩
  simp [PaginationAdapter.get, stubNoKey]

/-- C2 amended: on every adapter constructed without a key-lookup
function, `get` with any string key returns the built-in `TypeError`
with the message of line 78, leaves the state unchanged, and performs
no provider call at all (empty trace, so in particular the factory is
not invoked). -/
theorem get_str_no_lookup_typeerror (a : PaginationAdapter ρ μ)
    (s : AdapterState ρ) (k : String) (h : a.get_by_key = none) :
    get a s (.str k)
      = ⟨.error (.typeError "Indexing by str is not supported for this model"), s, []⟩ := by
  simp [PaginationAdapter.get, h]

/-- C2 witness: the amended theorem applied to the stub adapter without
a key-lookup function. -/
theorem get_str_no_lookup_typeerror_witness :
    get stubNoKey (AdapterState.fresh Nat) (.str "missing")
      = ⟨.error (.typeError "Indexing by str is not supported for this model"),
         AdapterState.fresh Nat, []⟩ :=
  get_str_no_lookup_typeerror stubNoKey (AdapterState.fresh Nat) "missing" rfl

/-- C3 counterexample: on an adapter whose key-lookup raises the
provider's not-found condition (`UnknownObjectException` with status
404), `get` with a string key propagates that very exception; it does
not raise a `NotFoundError` (no such class exists in the code). -/
theorem get_str_notfound_counterexample :
    (get stubWithLookup (AdapterState.fresh Nat) (.str "missing")).value
        = .error (.unknownObject 404)
    ∧ (get stubWithLookup (AdapterState.fresh Nat) (.str "missing")).value
        ≠ .error PyError.notFound := by
  refine ⟨rfl, ?_⟩
  simp [PaginationAdapter.get, stubWithLookup, notFoundLookup]

/-- C3 amended: on every adapter with a key-lookup function, `get` with
a string key propagates every exception of the key-lookup function to
the caller unchanged — including the provider's not-found condition,
which is not translated into any adapter-owned error. -/
theorem get_str_propagates_unchanged (a : PaginationAdapter ρ μ)
    (s : AdapterState ρ) (f : String → Except PyError ρ) (k : String) (e : PyError)
    (hf : a.get_by_key = some f) (he : f k = .error e) :
    get a s (.str k) = ⟨.error e, s, [⟨.keyLookup, .worker⟩]⟩ := by
  simp [PaginationAdapter.get, hf, he]

/-- C3 witness: the amended theorem applied to the stub adapter whose
key-lookup raises the provider's not-found condition. -/
theorem get_str_propagates_unchanged_witness :
    get stubWithLookup (AdapterState.fresh Nat) (.str "missing")
      = ⟨.error (.unknownObject 404), AdapterState.fresh Nat, [⟨.keyLookup, .worker⟩]⟩ :=
  get_str_propagates_unchanged stubWithLookup (AdapterState.fresh Nat)
    notFoundLookup "missing" (.unknownObject 404) rfl rfl

/-- C5 counterexample: a `length()` call that constructs the raw
collection executes the factory invocation directly on the calling
scheduler thread (`__len__` is a plain synchronous method; it never
dispatches to a worker), refuting the claim that the factory call is
dispatched to a worker execution context. -/
theorem len_factory_on_scheduler_counterexample :
    factoryCount (len stubNoKey (AdapterState.fresh Nat)).trace = 1
    ∧ Eff.mk .factory .scheduler ∈ (len stubNoKey (AdapterState.fresh Nat)).trace
    ∧ Eff.mk .factory .worker ∉ (len stubNoKey (AdapterState.fresh Nat)).trace := by
  refine ⟨rfl, ?_, ?_⟩ <;> decide

/-- C5 amended: every call performed by `length()` — the factory
invocation that constructs the raw collection included — executes on
the calling scheduler thread; `length()` dispatches nothing to a worker
execution context. -/
theorem len_runs_on_scheduler (a : PaginationAdapter ρ μ) (s : AdapterState ρ) :
    ∀ e ∈ (len a s).trace, e.site = Site.scheduler := by
  rcases s with ⟨_ | l⟩ <;> simp [len, _list]

/-- C5 witness: the amended theorem applied to the stub adapter and the
factory effect its `length()` call records. -/
theorem len_runs_on_scheduler_witness :
    Eff.mk .factory .scheduler ∈ (len stubNoKey (AdapterState.fresh Nat)).trace
    ∧ (Eff.mk PCall.factory Site.scheduler).site = Site.scheduler :=
  ⟨by decide,
   len_runs_on_scheduler stubNoKey (AdapterState.fresh Nat)
     ⟨.factory, .scheduler⟩ (by decide)⟩

/-- C6: `get_readme()` returns `None` exactly when the provider lookup
raises its not-found condition (`UnknownObjectException` with status
404); a successful lookup returns the mapped `File`, and any other
exception — a non-404 `UnknownObjectException` included — re-raises
unchanged. -/
theorem get_readme_not_found_none (r : RawRepository) :
    (Repo.get_readme r = .ok none ↔ r.readmeResult = .error (.unknownObject 404))
    ∧ (∀ f, r.readmeResult = .ok f → Repo.get_readme r = .ok (some ⟨f⟩))
    ∧ (∀ e, r.readmeResult = .error e → e ≠ .unknownObject 404 →
        Repo.get_readme r = .error e) := by
  refine ⟨⟨fun h => ?_, fun h => ?_⟩, fun f hf => ?_, fun e he hne => ?_⟩
  · rcases hr : r.readmeResult with e | f
    · cases e
      case unknownObject status =>
        simp only [Repo.get_readme, hr] at h
        split at h
        · next hst => rw [hst]
        · simp at h
      all_goals simp [Repo.get_readme, hr] at h
    · simp [Repo.get_readme, hr] at h
  · simp [Repo.get_readme, h]
  · simp [Repo.get_readme, hf]
  · cases e
    case unknownObject status =>
      simp only [Repo.get_readme, he]
      rw [if_neg (fun heq => hne (by rw [heq]))]
    all_goals simp [Repo.get_readme, he]

/-- C6 witness: the theorem applied to the stub repository whose readme
lookup raises the provider's not-found condition. -/
theorem get_readme_not_found_none_witness :
    Repo.get_readme readme404Repo = .ok none :=
  (get_readme_not_found_none readme404Repo).1.mpr rfl

/-- A factory effect at the head of a trace adds one to the count. -/
theorem factoryCount_factory_cons (t : List Eff) :
    factoryCount (⟨PCall.factory, Site.scheduler⟩ :: t) = factoryCount t + 1 := by
  simp [factoryCount, List.filter_cons]

/-- A memoized adapter state survives any operation unchanged, and the
operation invokes the factory zero times. -/
theorem applyOp_from_memo (a : PaginationAdapter ρ μ) (l : RawPagination ρ)
    (op : AOp) :
    (applyOp a ⟨some l⟩ op).1 = ⟨some l⟩
    ∧ factoryCount (applyOp a ⟨some l⟩ op).2 = 0 := by
  cases op with
  | length => exact ⟨rfl, rfl⟩
  | getInt i =>
      rcases h : rawGetIndex l i with e | raw <;>
        simp [applyOp, PaginationAdapter.get, _list, h, factoryCount]
  | sliceA u v =>
      refine ⟨rfl, ?_⟩
      apply factoryCount_eq_zero
      intro e he
      simp only [applyOp, sliceOp, _list, List.nil_append, List.mem_append,
        List.mem_singleton, List.mem_map] at he
      rcases he with rfl | ⟨x, _, rfl⟩ <;> simp
  | iterate =>
      refine ⟨rfl, ?_⟩
      apply factoryCount_eq_zero
      intro e he
      simp only [applyOp, aiterRun, _list, List.nil_append] at he
      rcases aiterLoop_trace_calls a l.items e he with h | h <;> simp [h]
  | allA =>
      refine ⟨rfl, ?_⟩
      apply factoryCount_eq_zero
      intro e he
      simp only [applyOp, allOp, len, _list, List.nil_append, List.append_nil,
        List.mem_append, List.mem_singleton, List.mem_map] at he
      rcases he with (rfl | rfl) | ⟨x, _, rfl⟩ <;> simp

/-- An operation on a fresh adapter equals the same operation on the
memoized adapter, preceded by exactly one scheduler-side factory
invocation. -/
theorem applyOp_fresh_eq (a : PaginationAdapter ρ μ) (op : AOp) :
    applyOp a (AdapterState.fresh ρ) op
      = ((applyOp a ⟨some (a.init ())⟩ op).1,
         Eff.mk .factory .scheduler :: (applyOp a ⟨some (a.init ())⟩ op).2) := by
  cases op
  case getInt i =>
    rcases h : rawGetIndex (a.init ()) i with e | raw <;>
      simp [applyOp, PaginationAdapter.get, _list, AdapterState.fresh, h]
  all_goals rfl

/-- A run started on a memoized adapter never invokes the factory and
keeps the memoized reference. -/
theorem runOps_from_memo (a : PaginationAdapter ρ μ) (l : RawPagination ρ)
    (ops : List AOp) :
    (runOps a ⟨some l⟩ ops).1 = ⟨some l⟩
    ∧ factoryCount (runOps a ⟨some l⟩ ops).2 = 0 := by
  induction ops with
  | nil => exact ⟨rfl, rfl⟩
  | cons op ops ih =>
      obtain ⟨h1, h2⟩ := applyOp_from_memo a l op
      constructor
      · show (runOps a (applyOp a ⟨some l⟩ op).1 ops).1 = ⟨some l⟩
        rw [h1]
        exact ih.1
      · show factoryCount ((applyOp a ⟨some l⟩ op).2
            ++ (runOps a (applyOp a ⟨some l⟩ op).1 ops).2) = 0
        rw [factoryCount_append, h1, h2, ih.2]

/-- C1: over any nonempty sequence of length, integer get, slice,
iteration and all calls against a fresh adapter, the factory is invoked
exactly once (the first call constructs, every later call reuses the
memoized reference); in particular two successive `length()` calls
return the same value while invoking the factory exactly once. -/
theorem pagination_adapter_constructs_once (a : PaginationAdapter ρ μ)
    (ops : List AOp) (h : ops ≠ []) :
    factoryCount (runOps a (AdapterState.fresh ρ) ops).2 = 1
    ∧ (len a (AdapterState.fresh ρ)).value
        = (len a (len a (AdapterState.fresh ρ)).state).value
    ∧ factoryCount ((len a (AdapterState.fresh ρ)).trace
        ++ (len a (len a (AdapterState.fresh ρ)).state).trace) = 1 := by
  refine ⟨?_, rfl, rfl⟩
  cases ops with
  | nil => exact absurd rfl h
  | cons op ops =>
      have hfresh := applyOp_fresh_eq a op
      have hmemo := applyOp_from_memo a (a.init ()) op
      have hrun := runOps_from_memo a (a.init ()) ops
      have hcount1 : factoryCount (applyOp a (AdapterState.fresh ρ) op).2 = 1 := by
        rw [hfresh]
        simp [factoryCount_factory_cons, hmemo.2]
      have hstate : (applyOp a (AdapterState.fresh ρ) op).1 = ⟨some (a.init ())⟩ := by
        rw [hfresh]
        exact hmemo.1
      show factoryCount ((applyOp a (AdapterState.fresh ρ) op).2
          ++ (runOps a (applyOp a (AdapterState.fresh ρ) op).1 ops).2) = 1
      rw [factoryCount_append, hcount1, hstate, hrun.2]

/-- C1 witness: two successive `length()` calls on the stub adapter
form a nonempty call sequence whose run invokes the factory exactly
once. -/
theorem pagination_adapter_constructs_once_witness :
    [AOp.length, AOp.length] ≠ ([] : List AOp)
    ∧ factoryCount (runOps stubNoKey (AdapterState.fresh Nat)
        [AOp.length, AOp.length]).2 = 1 :=
  ⟨List.cons_ne_nil _ _,
   (pagination_adapter_constructs_once stubNoKey [AOp.length, AOp.length]
      (List.cons_ne_nil _ _)).1⟩

/-- C4: over a raw collection all of whose items are truthy (as every
PyGithub raw object is) and for every index `i` below the collection
size `n`, `get(i)`, `slice(0, n)[i]` and the `i`-th element of a full
iteration are the same mapped domain value. -/
theorem get_slice_iteration_agree (a : PaginationAdapter ρ μ) (i : Nat)
    (ht : ∀ x ∈ (a.init ()).items, a.truthy x = true)
    (hi : i < (a.init ()).items.length) :
    ∃ m : μ,
      (get a (AdapterState.fresh ρ) (.int i)).value = .ok m
      ∧ (sliceOp a (AdapterState.fresh ρ) 0
          (a.init ()).items.length).value[i]? = some m
      ∧ (aiterRun a (AdapterState.fresh ρ)).value[i]? = some m := by
  obtain ⟨x, hx⟩ : ∃ x, (a.init ()).items[i]? = some x :=
    ⟨_, List.getElem?_eq_getElem hi⟩
  refine ⟨a.model_of x, ?_, ?_, ?_⟩
  · simp [PaginationAdapter.get, _list, AdapterState.fresh, rawGetIndex, hx]
  · simp only [sliceOp, _list, AdapterState.fresh, rawSlice_all, List.getElem?_map]
    rw [hx]
    rfl
  · simp only [aiterRun, _list, AdapterState.fresh,
      aiterLoop_all_truthy a _ ht, List.getElem?_map]
    rw [hx]
    rfl

/-- C4 witness: the theorem applied to the stub adapter at index 1. -/
theorem get_slice_iteration_agree_witness :
    ∃ m : Nat,
      (get stubNoKey (AdapterState.fresh Nat) (.int 1)).value = .ok m
      ∧ (sliceOp stubNoKey (AdapterState.fresh Nat) 0
          (stubNoKey.init ()).items.length).value[1]? = some m
      ∧ (aiterRun stubNoKey (AdapterState.fresh Nat)).value[1]? = some m :=
  get_slice_iteration_agree stubNoKey 1 (by decide) (by decide)

/-- C7: iteration over an adapter wrapping a 3-element stub collection
of truthy items yields exactly the 3 mapped elements in provider order
and nothing else. -/
theorem iteration_three_elements (a : PaginationAdapter ρ μ) (x y z : ρ)
    (hx : a.truthy x = true) (hy : a.truthy y = true) (hz : a.truthy z = true)
    (hinit : (a.init ()).items = [x, y, z]) :
    (aiterRun a (AdapterState.fresh ρ)).value
      = [a.model_of x, a.model_of y, a.model_of z] := by
  simp [aiterRun, _list, AdapterState.fresh, hinit, aiterLoop, hx, hy, hz]

/-- C7 witness: the theorem applied to the 3-element stub adapter. -/
theorem iteration_three_elements_witness :
    (aiterRun stubNoKey (AdapterState.fresh Nat)).value = [10, 20, 30] :=
  iteration_three_elements stubNoKey 1 2 3 rfl rfl rfl rfl

/-- C10: iteration tests each fetched raw item for truthiness, not for
identity with the `None` sentinel: when the collection holds truthy
items `xs` followed by a falsy item and an arbitrary tail, a full
iteration yields exactly the mapped `xs` and silently drops the falsy
item and everything after it. -/
theorem iteration_drops_falsy_tail (a : PaginationAdapter ρ μ)
    (xs ys : List ρ) (f : ρ)
    (hxs : ∀ x ∈ xs, a.truthy x = true) (hf : a.truthy f = false)
    (hinit : (a.init ()).items = xs ++ f :: ys) :
    (aiterRun a (AdapterState.fresh ρ)).value = xs.map a.model_of := by
  simp [aiterRun, _list, AdapterState.fresh, hinit,
    aiterLoop_stops_at_falsy a xs ys f hxs hf]

/-- C10 witness: the stub adapter over items 1, 2, 0, 5, where the stub
0 is falsy: iteration yields only the images of 1 and 2. -/
theorem iteration_drops_falsy_tail_witness :
    (aiterRun stubFalsy (AdapterState.fresh Nat)).value = [10, 20] :=
  iteration_drops_falsy_tail stubFalsy [1, 2] [5] 0 (by decide) rfl rfl

/-- C8: on the stub directory tree mapping the root to a subdirectory
`a` and a file `b.txt`, and `a` to the file `a/c.txt`, `get_files()`
yields exactly the files with paths `b.txt` and `a/c.txt` and performs
exactly 2 directory-expansion calls. -/
theorem get_files_stub_tree :
    (Repo.get_files stubTreeRepo 3).map
        (fun out => (out.1.map FileM.path, out.2))
      = some (["b.txt", "a/c.txt"], 2) := by
  rfl
